import Mathlib

/-!
Shallow embedding of the hutch-python session launcher, for checking its
specification: the noisy-logger rate filter (`hutch_python/log_setup.py`),
the fault-isolating load guard (`hutch_python/utils.py`, `safe_load`), the
camera-configuration loader (`hutch_python/cam_load.py`), and the derived
group-namespace registration (`hutch_python/load_conf.py`,
`default_class_namespace`).

Python dicts are modelled as association lists (insertion-ordered, like
CPython dicts); machine details that the claims do not touch (timestamps,
thread scheduling, the actual EPICS device constructors) are abstracted as
explicit parameters.
-/

/-! ## Association-list helpers (Python dict / defaultdict) -/

/-- Lookup in an association list, the model of a Python dict read. -/
def alistGet {α : Type} (m : List (String × α)) (k : String) : Option α :=
  match m with
  | [] => none
  | (k', v) :: rest => if k' = k then some v else alistGet rest k

/-- Write to a Python dict: an existing key keeps its position and gets the
new value, a new key is appended (CPython insertion order). -/
def alistSet {α : Type} (m : List (String × α)) (k : String) (v : α) :
    List (String × α) :=
  match m with
  | [] => [(k, v)]
  | (k', v') :: rest =>
    if k' = k then (k, v) :: rest else (k', v') :: alistSet rest k v

/-- The count a `defaultdict(int)` reports for a key. -/
def countOf (m : List (String × Nat)) (k : String) : Nat :=
  (alistGet m k).getD 0

/-- The model of `d[k] += 1` on a `defaultdict(int)`. -/
def alistIncr (m : List (String × Nat)) (k : String) : List (String × Nat) :=
  alistSet m k (countOf m k + 1)

/-! ## Python logging level numbers (the `logging` module constants) -/

def py_DEBUG : Nat := 10
def py_INFO : Nat := 20
def py_WARNING : Nat := 30
def py_ERROR : Nat := 40

/-- constants.py line 29. -/
def SUCCESS_LEVEL : Nat := 35

/-- log_setup.py line 59. -/
def OBJECT_NAME_STANDIN : String := "-"

/-! ## log_setup.ObjectFilter -/

/-- State of `log_setup.ObjectFilter` (log_setup.py lines 243-346): the level
names are kept as their numeric values (`validate_log_level`), the ophyd
objects by their names (`object_names` is the `object_names` property over
`_objects`). -/
structure ObjectFilter where
  object_names : List String
  allow_other_messages : Bool
  levelno : Nat
  whitelist_all_levelno : Nat
  name_to_log_count_1s : List (String × Nat)
  name_to_log_count_10s : List (String × Nat)
  name_to_log_count_60s : List (String × Nat)
  noisy_threshold_1s : Nat
  noisy_threshold_10s : Nat
  noisy_threshold_60s : Nat
  whitelist : List String
  blacklist : List String
  noisy_loggers : List (String × Nat)
  timer_index : Nat
deriving DecidableEq

/-- Transliteration of `ObjectFilter.__init__` (log_setup.py lines 322-353).
Line 343 of the source reads
`self.noisy_threshold_60s = int(noisy_threshold_10s)`: the 60-second
threshold attribute is assigned from the ten-second argument, and the
`noisy_threshold_60s` argument is never stored. -/
def ObjectFilter.init (object_names : List String)
    (levelno whitelist_all_levelno : Nat)
    (noisy_threshold_1s noisy_threshold_10s noisy_threshold_60s : Nat)
    (whitelist blacklist : List String)
    (allow_other_messages : Bool) : ObjectFilter :=
  { object_names := object_names
    allow_other_messages := allow_other_messages
    levelno := levelno
    whitelist_all_levelno := whitelist_all_levelno
    name_to_log_count_1s := []
    name_to_log_count_10s := []
    name_to_log_count_60s := []
    noisy_threshold_1s := noisy_threshold_1s
    noisy_threshold_10s := noisy_threshold_10s
    noisy_threshold_60s := noisy_threshold_10s
    whitelist := whitelist
    blacklist := blacklist
    noisy_loggers := []
    timer_index := 0 }

/-- One window's set comprehension in `_count_update` (log_setup.py lines
363-375): the names whose count satisfies `count > threshold > 0`. -/
def exceeders (counts : List (String × Nat)) (threshold : Nat) : List String :=
  (counts.filter fun p => decide (threshold < p.2) && decide (0 < threshold)).map
    Prod.fst

/-- One tick of `ObjectFilter._count_update` (log_setup.py lines 361-397):
union the three windows' exceeders, skip whitelisted and already-flagged
names, `setdefault` the rest into `noisy_loggers` (the source iterates the
union in sorted order, which only affects the announcement order, not the
resulting dict membership), then advance the timer index and clear the
expired windows. -/
def ObjectFilter.count_update (f : ObjectFilter) : ObjectFilter :=
  let noisy := exceeders f.name_to_log_count_1s f.noisy_threshold_1s ++
               exceeders f.name_to_log_count_10s f.noisy_threshold_10s ++
               exceeders f.name_to_log_count_60s f.noisy_threshold_60s
  let newNoisy := noisy.foldl
    (fun acc name =>
      if f.whitelist.contains name then acc
      else if (acc.map Prod.fst).contains name then acc
      else acc ++ [(name, 0)])
    f.noisy_loggers
  let ti := (f.timer_index + 1) % 60
  { f with
    noisy_loggers := newNoisy
    timer_index := ti
    name_to_log_count_60s := if ti = 0 then [] else f.name_to_log_count_60s
    name_to_log_count_10s := if ti % 10 = 0 then [] else f.name_to_log_count_10s
    name_to_log_count_1s := [] }

/-- A `logging.LogRecord` restricted to the fields `ObjectFilter.filter`
reads or writes; `ophyd_object_name` is `none` when the record carries no
such attribute. -/
structure LogRecord where
  name : String
  levelno : Nat
  levelname : String
  ophyd_object_name : Option String
deriving DecidableEq

/-- Everything `ObjectFilter.filter` leaves behind: the mutated filter state,
the (possibly demoted) record, the locals `should_show` and `is_noisy`, and
the returned boolean. -/
structure FilterResult where
  state : ObjectFilter
  record : LogRecord
  should_show : Bool
  is_noisy : Bool
  result : Bool
deriving DecidableEq

/-- The name `ObjectFilter.filter` accounts a record under: the tag when a
real ophyd object name is present, otherwise `record.name`. -/
def resolved_name (record : LogRecord) : String :=
  match record.ophyd_object_name with
  | none => record.name
  | some n => if n = OBJECT_NAME_STANDIN then record.name else n

/-- Transliteration of `ObjectFilter.filter` (log_setup.py lines 529-564).
For an untagged record the source computes `should_show` from
`name not in self.blacklist` while `name` is still the tag value (`None` or
the stand-in "-"), and only then rebinds `name = record.name`; in Python
`None in blacklist` is `False` for a list of strings.  The source mutates
the three counter dicts under `should_show` and the `noisy_loggers` dict
under `is_noisy`; the fields are disjoint, so the two conditional updates
are written as one record update. -/
def ObjectFilter.filter (f : ObjectFilter) (record : LogRecord) : FilterResult :=
  let step : String × LogRecord × Bool :=
    match record.ophyd_object_name with
    | none => (record.name, record, f.allow_other_messages)
    | some n =>
      if n = OBJECT_NAME_STANDIN then
        (record.name, record, f.allow_other_messages && !(f.blacklist.contains n))
      else
        let record' :=
          if record.levelno = py_INFO then
            { record with levelno := py_DEBUG, levelname := "DEBUG" }
          else record
        let should_show :=
          (decide (f.whitelist_all_levelno ≤ record'.levelno) ||
            f.object_names.contains n) && !(f.blacklist.contains n)
        (n, record', should_show)
  let name := step.1
  let record := step.2.1
  let should_show := step.2.2
  let is_noisy := (f.noisy_loggers.map Prod.fst).contains name
      && !(f.whitelist.contains name) && !(f.object_names.contains name)
  let f2 :=
    { f with
      name_to_log_count_1s :=
        if should_show then alistIncr f.name_to_log_count_1s name
        else f.name_to_log_count_1s
      name_to_log_count_10s :=
        if should_show then alistIncr f.name_to_log_count_10s name
        else f.name_to_log_count_10s
      name_to_log_count_60s :=
        if should_show then alistIncr f.name_to_log_count_60s name
        else f.name_to_log_count_60s
      noisy_loggers :=
        if is_noisy then
          alistSet f.noisy_loggers name
            ((alistGet f.noisy_loggers name).getD 0 + 1)
        else f.noisy_loggers }
  { state := f2
    record := record
    should_show := should_show
    is_noisy := is_noisy
    result := should_show && !is_noisy }

/-- An event in a filter's life: a record arriving at `filter`, or one tick
of the background `_count_update` thread. -/
inductive FilterEvent where
  | arrives : LogRecord → FilterEvent
  | tick : FilterEvent
deriving DecidableEq

/-- Run a sequence of events through a filter. -/
def ObjectFilter.run (f : ObjectFilter) : List FilterEvent → ObjectFilter
  | [] => f
  | FilterEvent.arrives r :: rest => ((f.filter r).state).run rest
  | FilterEvent.tick :: rest => (f.count_update).run rest

/-! ## utils.safe_load and the sequential loader -/

/-- A Python raisable value. `derives_Exception` is true for subclasses of
`Exception`; it is false for the base-only exceptions that derive directly
from `BaseException`, such as `SystemExit` (raised by `sys.exit` in
`utils.maybe_exit`) and `KeyboardInterrupt`. -/
structure PyRaisable where
  cls : String
  derives_Exception : Bool
deriving DecidableEq

/-- What a load step's body does: return, or raise. -/
inductive BodyResult where
  | ok : BodyResult
  | raised : PyRaisable → BodyResult
deriving DecidableEq

/-- One emitted log message: its level, text, the elapsed time it reports
(if any), and whether it attaches the traceback (`exc_info=True`). -/
structure LogEntry where
  levelno : Nat
  text : String
  elapsed : Option Nat
  exc_info : Bool
deriving DecidableEq

/-- Transliteration of the `utils.safe_load` context manager (utils.py lines
30-64) applied to one step body: the result is the exception that propagates
out of the guard (if any) and the log messages emitted.  The source's
`except Exception` clause absorbs exactly the raisables deriving from
`Exception`, logging the failure and elapsed time at ERROR and the traceback
at DEBUG; anything else propagates. -/
def safe_load (identifier : String) (body : BodyResult) (duration : Nat) :
    Option PyRaisable × List LogEntry :=
  let pre : List LogEntry :=
    [{ levelno := py_INFO, text := "Loading " ++ identifier ++ "..."
       elapsed := none, exc_info := false }]
  match body with
  | BodyResult.ok =>
    (none,
     pre ++ [{ levelno := SUCCESS_LEVEL
               text := "Successfully loaded " ++ identifier
               elapsed := some duration, exc_info := false }])
  | BodyResult.raised exc =>
    if exc.derives_Exception then
      (none,
       pre ++ [{ levelno := py_ERROR
                 text := "Failed to load " ++ identifier
                 elapsed := some duration, exc_info := false },
               { levelno := py_DEBUG, text := exc.cls
                 elapsed := none, exc_info := true }])
    else
      (some exc, pre)

/-- The loader's sequence of `with safe_load(...)` steps (load_conf.py lines
293-303 and onward): each step is a name, a body outcome and its duration.
A raisable that escapes one guard aborts the remaining steps. -/
def run_steps : List (String × BodyResult × Nat) → Option PyRaisable × List LogEntry
  | [] => (none, [])
  | (name, body, d) :: rest =>
    match safe_load name body d with
    | (some e, log) => (some e, log)
    | (none, log) =>
      let r := run_steps rest
      (r.1, log ++ r.2)

/-! ## Python string primitives

The claims about the camera loader need the kernel to evaluate the model on
concrete inputs, so the Python string operations the source uses are
implemented structurally over `List Char` rather than through the library's
position-based `String` functions. -/

/-- Python `s.split(sep)` for a one-character separator, over characters:
every occurrence separates, empty pieces included, and the result is never
empty. -/
def pySplitChar (sep : Char) : List Char → List (List Char)
  | [] => [[]]
  | c :: rest =>
    if c = sep then [] :: pySplitChar sep rest
    else
      match pySplitChar sep rest with
      | [] => [[c]]
      | t :: ts => (c :: t) :: ts

/-- Python `s.split(sep)` for a one-character separator. -/
def pySplit (s : String) (sep : Char) : List String :=
  (pySplitChar sep s.data).map String.mk

/-- The ASCII whitespace `str.strip()` removes (the config files at hand
hold no exotic unicode whitespace). -/
def isSpaceChar (c : Char) : Bool :=
  c = ' ' || c = '\t' || c = '\n' || c = '\r'

/-- Python `s.strip()`. -/
def pyStrip (s : String) : String :=
  String.mk (((s.data.dropWhile isSpaceChar).reverse.dropWhile
    isSpaceChar).reverse)

/-- Python `s.startswith(pre)`. -/
def pyStartsWith (s pre : String) : Bool :=
  pre.data.isPrefixOf s.data

/-- Python `sep.join(parts)`. -/
def pyJoin (sep : String) : List String → String
  | [] => ""
  | [x] => x
  | x :: xs => x ++ sep ++ pyJoin sep xs

/-- Python `s.replace(old, new)` for one-character arguments. -/
def pyReplaceChar (s : String) (old new : Char) : String :=
  String.mk (s.data.map fun c => if c = old then new else c)

/-- Python `s.lower()` (ASCII; the characters at hand). -/
def pyLower (s : String) : String :=
  String.mk (s.data.map Char.toLower)

/-! ## cam_load: the camera-configuration loader -/

/-- Transliteration of `cam_load.get_det_prefix` (cam_load.py lines 217-237):
split `pv_info` on semicolons; index 1 if it exists (the `try` branch),
otherwise (`IndexError`) join all but the last colon-delimited piece of the
first segment; always append a trailing colon. -/
def get_det_prefix (pv_info : String) : String :=
  let parts := pySplit pv_info ';'
  let detector_base :=
    match parts.get? 1 with
    | some second => second
    | none => pyJoin ":" ((pySplit (parts.headD "") ':').dropLast)
  detector_base ++ ":"

/-- A file system for `interpret_cfg`: file name to its list of lines. -/
abbrev CfgFS := List (String × List String)

/-- The derived device prefix of an interpreted config line
(`get_det_prefix(parts[1])`, with `parts.getD 1 ""` standing for the
`parts[1]` of a line already known to have more than one field). -/
def line_prefix_of (parts : List String) : String :=
  get_det_prefix (parts.getD 1 "")

/-- What `interpret_lines` does with one line: skip it (blank, comment,
single-field, or an include with no argument whose `IndexError` is caught
and logged), recurse into an included file, or treat it as a device line
with its comma-split trimmed fields. -/
inductive LineAction where
  | skip : LineAction
  | includeFile : String → LineAction
  | device : List String → LineAction
deriving DecidableEq

/-- The per-line branching of `cam_load.interpret_lines` (cam_load.py lines
82-105): strip the line, drop blanks and `#` comments, recognize an
`include <path>` first field (`split(' ')[1]`; a missing argument raises
`IndexError`, caught and skipped), and otherwise keep lines with more than
one comma-separated field. -/
def line_action (line : String) : LineAction :=
  let line := pyStrip line
  if line = "" || pyStartsWith line "#" then LineAction.skip
  else
    let parts := (pySplit line ',').map pyStrip
    if pyStartsWith (parts.headD "") "include" then
      match (pySplit (parts.headD "") ' ').get? 1 with
      | none => LineAction.skip
      | some fname => LineAction.includeFile fname
    else if 1 < parts.length then LineAction.device parts
    else LineAction.skip

/-- Transliteration of `cam_load.interpret_lines` (cam_load.py lines 60-107)
fused with the `interpret_cfg` body it calls on an `include` line (reading
the included file's lines from `fs`).  `fuel` is a work budget: every
recursive call consumes one unit, and `none` models an uncaught
exception - `RecursionError` when an include chain never bottoms out (any
finite budget runs dry), or `FileNotFoundError` for a missing include
target.  `pvnames` is the threaded already-seen-prefix set; a device line
is kept only when its derived prefix is new. -/
def interpret_lines_fuel (fuel : Nat) (fs : CfgFS) (lines : List String)
    (pvnames : List String) : Option (List (List String) × List String) :=
  match fuel with
  | 0 => none
  | fuel + 1 =>
    match lines with
    | [] => some ([], pvnames)
    | line :: rest =>
      match line_action line with
      | LineAction.skip => interpret_lines_fuel fuel fs rest pvnames
      | LineAction.includeFile fname =>
        match alistGet fs fname with
        | none => none
        | some flines =>
          match interpret_lines_fuel fuel fs flines pvnames with
          | none => none
          | some (inc, pv') =>
            match interpret_lines_fuel fuel fs rest pv' with
            | none => none
            | some (info, pv'') => some (inc ++ info, pv'')
      | LineAction.device parts =>
        if pvnames.contains (line_prefix_of parts) then
          interpret_lines_fuel fuel fs rest pvnames
        else
          match interpret_lines_fuel fuel fs rest
              (pvnames ++ [line_prefix_of parts]) with
          | none => none
          | some (info, pv') => some (parts :: info, pv')

/-- Transliteration of `cam_load.interpret_cfg` (cam_load.py lines 38-57):
read the file's lines and interpret them with a fresh empty prefix set at
the top-level call (`pvnames = set()`). -/
def interpret_cfg_fuel (fuel : Nat) (fs : CfgFS) (filename : String)
    (pvnames : List String) : Option (List (List String) × List String) :=
  match fuel with
  | 0 => none
  | fuel + 1 =>
    match alistGet fs filename with
    | none => none
    | some lines => interpret_lines_fuel fuel fs lines pvnames

/-- The fully-expanded line sequence: same control flow and fuel accounting
as `interpret_lines_fuel`, but keeping every device line in reading order
with no deduplication.  Used to state what "first occurrence in reading
order" means. -/
def flatten_lines_fuel (fuel : Nat) (fs : CfgFS) (lines : List String) :
    Option (List (List String)) :=
  match fuel with
  | 0 => none
  | fuel + 1 =>
    match lines with
    | [] => some []
    | line :: rest =>
      match line_action line with
      | LineAction.skip => flatten_lines_fuel fuel fs rest
      | LineAction.includeFile fname =>
        match alistGet fs fname with
        | none => none
        | some flines =>
          match flatten_lines_fuel fuel fs flines with
          | none => none
          | some inc =>
            match flatten_lines_fuel fuel fs rest with
            | none => none
            | some info => some (inc ++ info)
      | LineAction.device parts =>
        match flatten_lines_fuel fuel fs rest with
        | none => none
        | some info => some (parts :: info)

/-- The fully-expanded line sequence of a file (see `flatten_lines_fuel`). -/
def flatten_cfg_fuel (fuel : Nat) (fs : CfgFS) (filename : String) :
    Option (List (List String)) :=
  match fuel with
  | 0 => none
  | fuel + 1 =>
    match alistGet fs filename with
    | none => none
    | some lines => flatten_lines_fuel fuel fs lines

/-- Keep the first occurrence of every derived device prefix, threading the
already-seen set exactly as `interpret_lines` does. -/
def dedup_first : List (List String) → List String →
    List (List String) × List String
  | [], pvnames => ([], pvnames)
  | parts :: rest, pvnames =>
    if pvnames.contains (line_prefix_of parts) then
      dedup_first rest pvnames
    else
      let r := dedup_first rest (pvnames ++ [line_prefix_of parts])
      (parts :: r.1, r.2)

/-- The model of a constructed `PCDSAreaDetector`: `base_pv` holds the
`detector_prefix` constructor argument, `name` the keyword argument. -/
structure PCDSAreaDetector where
  base_pv : String
  name : String
deriving DecidableEq

/-- The exceptions `build_cam` raises (cam_load.py lines 240-249, plus the
`TypeError` of calling `build_cam(*info_part)` with fewer than four
fields). -/
inductive CamLoadError where
  | UnsupportedConfig : Option String → CamLoadError
  | MalformedConfig : Option String → CamLoadError
  | TypeErr : CamLoadError
deriving DecidableEq

/-- Transliteration of `cam_load.build_cam` (cam_load.py lines 180-214):
reject a type not starting with "GE", reject an empty `pv_info` or `name`,
otherwise build the detector with the derived prefix and the name with
spaces replaced by underscores and lowercased. -/
def build_cam (info_part : List String) : Except CamLoadError PCDSAreaDetector :=
  match info_part with
  | cam_type :: pv_info :: _evr :: name :: _rest =>
    if !(pyStartsWith cam_type "GE") then
      Except.error (CamLoadError.UnsupportedConfig (some name))
    else if pv_info = "" || name = "" then
      Except.error (CamLoadError.MalformedConfig (some name))
    else
      Except.ok
        { base_pv := get_det_prefix pv_info
          name := pyLower (pyReplaceChar name ' ' '_') }
  | _ => Except.error CamLoadError.TypeErr

/-- Transliteration of `cam_load.build_and_log` (cam_load.py lines 138-177):
every exception class `build_cam` raises is caught and logged, and the
function returns `None` for the failed line. -/
def build_and_log (info_part : List String) : Option PCDSAreaDetector :=
  match build_cam info_part with
  | Except.ok obj => some obj
  | Except.error _ => none

/-- Transliteration of `cam_load.load_cams` (cam_load.py lines 110-135):
build every line (`ThreadPool.map` preserves order) and index the non-`None`
results by their name. -/
def load_cams (info : List (List String)) : List (String × PCDSAreaDetector) :=
  (info.map build_and_log).foldl
    (fun objs o =>
      match o with
      | some obj => alistSet objs obj.name obj
      | none => objs)
    []

/-- Transliteration of `cam_load.read_camviewer_cfg` (cam_load.py lines
20-35): interpret the file, then load the cameras. -/
def read_camviewer_cfg (fuel : Nat) (fs : CfgFS) (filename : String) :
    Option (List (String × PCDSAreaDetector)) :=
  (interpret_cfg_fuel fuel fs filename []).map fun r => load_cams r.1

/-- The comma-split, trimmed fields of a config line, as `interpret_lines`
computes them. -/
def parse_parts (line : String) : List String :=
  (pySplit (pyStrip line) ',').map pyStrip

/-- A config line that `interpret_lines` keeps as a device line: not blank,
not a comment, not an include, and with at least two fields. -/
def plain_device_line (line : String) : Prop :=
  pyStrip line ≠ "" ∧ ¬ pyStartsWith (pyStrip line) "#" ∧
  ¬ pyStartsWith ((parse_parts line).headD "") "include" ∧
  1 < (parse_parts line).length

/-- A well-formed camera line: a device line with at least four fields, a
supported "GE" device type, and non-empty `pv_info` and `name` fields. -/
def well_formed_line (line : String) : Prop :=
  plain_device_line line ∧ 4 ≤ (parse_parts line).length ∧
  pyStartsWith ((parse_parts line).headD "") "GE" ∧
  (parse_parts line).getD 1 "" ≠ "" ∧ (parse_parts line).getD 3 "" ≠ ""

/-- A device line whose type is not the supported "GE" prefix: `build_cam`
raises `UnsupportedConfig` (or `TypeError` when it has under four fields),
which `build_and_log` catches. -/
def unsupported_line (line : String) : Prop :=
  plain_device_line line ∧ ¬ pyStartsWith ((parse_parts line).headD "") "GE"

/-! ## load_conf.default_class_namespace -/

/-- A flat namespace from names to groups of objects (object identity is
abstracted to `Nat`). -/
abbrev GroupNamespace := List (String × List Nat)

/-- Modelled from the spec: `LoadCache.__call__` (`cache.py` is not among the
source files; only its callers are).  Per the loader contract, a step's
produced name-to-object pairs are "merged into the running Namespace", names
unique within a level, so writing an existing name overwrites its value. -/
def cache_call (cache : GroupNamespace) (kwargs : GroupNamespace) :
    GroupNamespace :=
  kwargs.foldl (fun c kv => alistSet c kv.1 kv.2) cache

/-- Python's `name[0]` as a one-character string. -/
def head_alias (name : String) : String :=
  String.mk (name.data.take 1)

/-- Transliteration of `load_conf.default_class_namespace` (load_conf.py
lines 570-591): `objs` stands for the group `class_namespace(cls, scope)`
returns (`namespace.py` is not among the source files); if the group is
non-empty, `cache(**{name: objs, name[0]: objs})` registers it under the
full name and the first-letter alias (one single kwargs key when the two
coincide, since `**` kwargs form a dict), otherwise nothing is registered. -/
def default_class_namespace (objs : List Nat) (name : String)
    (cache : GroupNamespace) : GroupNamespace :=
  if 0 < objs.length then
    cache_call cache
      (if name = head_alias name then [(name, objs)]
       else [(name, objs), (head_alias name, objs)])
  else cache

/-! ## Concrete fixtures used by the closed theorems and witnesses -/

/-- A filter built with the constructor's default thresholds
`noisy_threshold_1s=20`, `noisy_threshold_10s=50`, `noisy_threshold_60s=100`
and default levels (WARNING), no whitelist, no blacklist. -/
def c1_filter : ObjectFilter :=
  ObjectFilter.init [] py_WARNING py_WARNING 20 50 100 [] [] true

/-- An untagged WARNING record from a logger that emits steadily. -/
def c1_record : LogRecord :=
  { name := "steady.logger", levelno := py_WARNING, levelname := "WARNING"
    ophyd_object_name := none }

/-- Fifty-two once-per-second cycles: one record, then one tick. -/
def c1_events : List FilterEvent :=
  (List.replicate 52 [FilterEvent.arrives c1_record, FilterEvent.tick]).flatten

/-- A filter whose blacklist holds the logger name `hushed.logger`. -/
def c2_filter : ObjectFilter :=
  ObjectFilter.init [] py_WARNING py_WARNING 20 50 100 [] ["hushed.logger"] true

/-- An untagged WARNING record whose logger name is blacklisted. -/
def c2_record : LogRecord :=
  { name := "hushed.logger", levelno := py_WARNING, levelname := "WARNING"
    ophyd_object_name := none }

/-- A filter focused on the object `pv`. -/
def c3_filter : ObjectFilter :=
  ObjectFilter.init ["pv"] py_WARNING py_WARNING 20 50 100 [] [] true

/-- An INFO record tagged with the ophyd object name `pv`. -/
def c3_record : LogRecord :=
  { name := "ophyd.objects", levelno := py_INFO, levelname := "INFO"
    ophyd_object_name := some "pv" }

/-- A filter that has already flagged `pv` as noisy (and has no whitelist
and no focused objects). -/
def c4_filter : ObjectFilter :=
  { c1_filter with noisy_loggers := [("pv", 0)] }

/-- A WARNING record tagged with the ophyd object name `pv`. -/
def c4_record : LogRecord :=
  { name := "ophyd.objects", levelno := py_WARNING, levelname := "WARNING"
    ophyd_object_name := some "pv" }

/-- SystemExit: raised by `sys.exit` inside `utils.maybe_exit`, which runs
inside a `safe_load` guard when a user module fails and the operator
declines to continue; it derives from `BaseException`, not `Exception`. -/
def system_exit : PyRaisable :=
  { cls := "SystemExit", derives_Exception := false }

/-- An ordinary exception deriving from `Exception`. -/
def value_error : PyRaisable :=
  { cls := "ValueError", derives_Exception := true }

/-- A camera config whose file includes itself (and also declares a device). -/
def c7_self_fs : CfgFS :=
  [("a.cfg", ["include a.cfg", "GE,SELF:IMG:DATA,evr,selfcam"])]

/-- A two-file camera config with a duplicate derived prefix across the
include: the third line's prefix repeats the first line's. -/
def c7_fs : CfgFS :=
  [("main.cfg", ["GE,IMG:A:DATA,evr,cam one", "include sub.cfg"]),
   ("sub.cfg", ["# comment", "GE,IMG:B:DATA,evr,cam two",
                "GE,IMG:A:RAW,evr,cam three"])]

/-- A config with an unsupported line first that shadows the well-formed
line's derived device prefix (both derive `IMG:A:`). -/
def c8_shadow_fs : CfgFS :=
  [("cams.cfg", ["XX,IMG:A:DATA,evr,bad cam", "GE,IMG:A:RAW,evr,good cam"])]

/-- A well-formed camera line. -/
def c8_good : String := "GE,IMG:B:RAW,evr,good cam"

/-- A line whose device type does not start with "GE". -/
def c8_bad : String := "XX,IMG:A:DATA,evr,bad cam"

/-- The camera built from the well-formed witness line. -/
def c9_cam : PCDSAreaDetector :=
  { base_pv := "IMG:A:", name := "my_cam_1" }

instance plain_device_line_decidable (line : String) :
    Decidable (plain_device_line line) := by
  unfold plain_device_line; infer_instance

instance well_formed_line_decidable (line : String) :
    Decidable (well_formed_line line) := by
  unfold well_formed_line; infer_instance

instance unsupported_line_decidable (line : String) :
    Decidable (unsupported_line line) := by
  unfold unsupported_line; infer_instance

/-! ## Shared lemmas -/

theorem alistGet_alistSet_self {α : Type} (m : List (String × α)) (k : String)
    (v : α) : alistGet (alistSet m k v) k = some v := by
  induction m with
  | nil => simp [alistSet, alistGet]
  | cons p rest ih =>
    obtain ⟨k', v'⟩ := p
    by_cases h : k' = k <;> simp [alistSet, alistGet, h, ih]

theorem countOf_alistIncr (m : List (String × Nat)) (k : String) :
    countOf (alistIncr m k) k = countOf m k + 1 := by
  simp [alistIncr, countOf, alistGet_alistSet_self]

theorem filter_spec (f : ObjectFilter) (record : LogRecord) :
    (f.filter record).is_noisy =
      ((f.noisy_loggers.map Prod.fst).contains (resolved_name record) &&
        !(f.whitelist.contains (resolved_name record)) &&
        !(f.object_names.contains (resolved_name record))) ∧
    (f.filter record).result =
      ((f.filter record).should_show && !(f.filter record).is_noisy) ∧
    (f.filter record).state.name_to_log_count_1s =
      (if (f.filter record).should_show then
        alistIncr f.name_to_log_count_1s (resolved_name record)
       else f.name_to_log_count_1s) ∧
    (f.filter record).state.name_to_log_count_10s =
      (if (f.filter record).should_show then
        alistIncr f.name_to_log_count_10s (resolved_name record)
       else f.name_to_log_count_10s) ∧
    (f.filter record).state.name_to_log_count_60s =
      (if (f.filter record).should_show then
        alistIncr f.name_to_log_count_60s (resolved_name record)
       else f.name_to_log_count_60s) := by
  obtain ⟨nm, lvl, lname, tag⟩ := record
  rcases tag with _ | n
  · exact ⟨rfl, rfl, rfl, rfl, rfl⟩
  · by_cases hs : n = OBJECT_NAME_STANDIN <;>
      simp [ObjectFilter.filter, resolved_name, hs]

/-! ## Claims about the rate filter -/

set_option maxRecDepth 8000 in
/-- C1: the claim says the once-per-second tick flags a source when one of
its rolling counts exceeds the matching constructor threshold, the
60-second window being compared against the constructor's 60-second
threshold argument.  In the code (log_setup.py line 343) the 60-second
threshold attribute is assigned from the ten-second argument: with the
default arguments (20, 50, 100), a source logging once per second is
flagged at the tick where its 60-second count reaches 51, although no
window of its ever exceeds 20, 50 and 100 respectively. -/
theorem C1_sixty_second_threshold_bug :
    c1_filter.noisy_threshold_60s = 50 ∧
    ((c1_filter.run c1_events).noisy_loggers.map Prod.fst).contains
      "steady.logger" = true := by decide

/-- C2: the claim says an untagged record is shown iff
`allow_other_messages` is true and the record's logger name is not on the
blacklist.  In the code the blacklist test for untagged records runs on the
tag value (`None` or "-"), not on `record.name`, so a record from a
blacklisted logger is still shown. -/
theorem C2_blacklist_not_applied_to_untagged :
    c2_filter.blacklist.contains c2_record.name = true ∧
    c2_filter.allow_other_messages = true ∧
    (c2_filter.filter c2_record).result = true := by decide

/-- C3: for a record tagged with a real source name, an INFO level is first
rewritten in place to DEBUG (numeric level and level name), and the
visibility verdict is: the (possibly demoted) level is at least the
filter's whitelist-all cutoff level or the source is focused, and the
source is not blacklisted. -/
theorem C3_tagged_record_visibility (f : ObjectFilter) (record : LogRecord)
    (n : String) (htag : record.ophyd_object_name = some n)
    (hstandin : n ≠ OBJECT_NAME_STANDIN) :
    (f.filter record).record.levelno =
      (if record.levelno = py_INFO then py_DEBUG else record.levelno) ∧
    (f.filter record).record.levelname =
      (if record.levelno = py_INFO then "DEBUG" else record.levelname) ∧
    (f.filter record).should_show =
      ((decide (f.whitelist_all_levelno ≤ (f.filter record).record.levelno) ||
        f.object_names.contains n) && !(f.blacklist.contains n)) := by
  by_cases h : record.levelno = py_INFO <;>
    simp [ObjectFilter.filter, htag, hstandin, h]

/-- Witness for C3: a focused object's INFO record is demoted to DEBUG and
the visibility verdict evaluates as stated. -/
theorem C3_witness :
    (c3_filter.filter c3_record).record.levelno =
      (if c3_record.levelno = py_INFO then py_DEBUG else c3_record.levelno) ∧
    (c3_filter.filter c3_record).record.levelname =
      (if c3_record.levelno = py_INFO then "DEBUG" else c3_record.levelname) ∧
    (c3_filter.filter c3_record).should_show =
      ((decide (c3_filter.whitelist_all_levelno ≤
          (c3_filter.filter c3_record).record.levelno) ||
        c3_filter.object_names.contains "pv") &&
       !(c3_filter.blacklist.contains "pv")) :=
  C3_tagged_record_visibility c3_filter c3_record "pv" rfl (by decide)

/-- C4: a record whose accounting name is flagged noisy, not whitelisted
and not focused is rejected regardless of the visibility verdict; and any
record whose visibility verdict is positive increments that name's three
rolling counters, whether or not the record is suppressed as noisy. -/
theorem C4_noisy_suppression_and_counters (f : ObjectFilter)
    (record : LogRecord) :
    ((f.noisy_loggers.map Prod.fst).contains (resolved_name record) = true →
      f.whitelist.contains (resolved_name record) = false →
      f.object_names.contains (resolved_name record) = false →
      (f.filter record).result = false) ∧
    ((f.filter record).should_show = true →
      countOf (f.filter record).state.name_to_log_count_1s
          (resolved_name record) =
        countOf f.name_to_log_count_1s (resolved_name record) + 1 ∧
      countOf (f.filter record).state.name_to_log_count_10s
          (resolved_name record) =
        countOf f.name_to_log_count_10s (resolved_name record) + 1 ∧
      countOf (f.filter record).state.name_to_log_count_60s
          (resolved_name record) =
        countOf f.name_to_log_count_60s (resolved_name record) + 1) := by
  obtain ⟨hnoisy, hres, h1s, h10s, h60s⟩ := filter_spec f record
  constructor
  · intro m1 m2 m3
    rw [hres, hnoisy, m1, m2, m3]
    simp
  · intro hshow
    rw [hshow] at h1s h10s h60s
    simp only [if_pos] at h1s h10s h60s
    rw [h1s, h10s, h60s]
    exact ⟨countOf_alistIncr _ _, countOf_alistIncr _ _, countOf_alistIncr _ _⟩

/-- Witness for C4: a record from the flagged source `pv` that the
visibility rule accepts is nonetheless rejected, and its counters are
incremented. -/
theorem C4_witness :
    (c4_filter.filter c4_record).result = false ∧
    countOf (c4_filter.filter c4_record).state.name_to_log_count_1s
      (resolved_name c4_record) =
      countOf c4_filter.name_to_log_count_1s (resolved_name c4_record) + 1 :=
  ⟨(C4_noisy_suppression_and_counters c4_filter c4_record).1 (by decide)
      (by decide) (by decide),
   ((C4_noisy_suppression_and_counters c4_filter c4_record).2 (by decide)).1⟩

/-! ## Claims about safe_load -/

/-- C5 counterexample: a `SystemExit` raised inside the guarded block (as
`utils.maybe_exit` does via `sys.exit` when the operator declines to
continue) propagates out of `safe_load`, and the remaining load steps do
not run; so not every exception raised by a step's body is absorbed. -/
theorem C5_counterexample :
    (safe_load "user module" (BodyResult.raised system_exit) 1).1 =
      some system_exit ∧
    (run_steps [("user module", BodyResult.raised system_exit, 1),
                ("position presets", BodyResult.ok, 1)]).1 =
      some system_exit := by decide

/-- C5 (amended): for a step body raising an exception deriving from
`Exception`, nothing propagates out of the guard, an ERROR entry reporting
the failure with the elapsed time and a DEBUG entry carrying the traceback
are logged, and the remaining steps run exactly as they would on their
own.  Exceptions deriving only from `BaseException` (`SystemExit`,
`KeyboardInterrupt`) are not absorbed. -/
theorem C5_exception_absorbed (name : String) (exc : PyRaisable) (d : Nat)
    (rest : List (String × BodyResult × Nat))
    (h : exc.derives_Exception = true) :
    (safe_load name (BodyResult.raised exc) d).1 = none ∧
    ({ levelno := py_ERROR, text := "Failed to load " ++ name
       elapsed := some d, exc_info := false } : LogEntry) ∈
      (safe_load name (BodyResult.raised exc) d).2 ∧
    ({ levelno := py_DEBUG, text := exc.cls, elapsed := none
       exc_info := true } : LogEntry) ∈
      (safe_load name (BodyResult.raised exc) d).2 ∧
    run_steps ((name, BodyResult.raised exc, d) :: rest) =
      ((run_steps rest).1,
       (safe_load name (BodyResult.raised exc) d).2 ++ (run_steps rest).2) := by
  simp [safe_load, run_steps, h]

/-- Witness for C5: a ValueError in the `daq` step is absorbed, logged at
ERROR with the elapsed time and at DEBUG with the traceback, and the
loader proceeds. -/
theorem C5_witness :
    (safe_load "daq" (BodyResult.raised value_error) 2).1 = none ∧
    ({ levelno := py_ERROR, text := "Failed to load " ++ "daq"
       elapsed := some 2, exc_info := false } : LogEntry) ∈
      (safe_load "daq" (BodyResult.raised value_error) 2).2 ∧
    ({ levelno := py_DEBUG, text := value_error.cls, elapsed := none
       exc_info := true } : LogEntry) ∈
      (safe_load "daq" (BodyResult.raised value_error) 2).2 ∧
    run_steps [("daq", BodyResult.raised value_error, 2)] =
      ((run_steps []).1,
       (safe_load "daq" (BodyResult.raised value_error) 2).2 ++
         (run_steps []).2) :=
  C5_exception_absorbed "daq" value_error 2 [] rfl

/-! ## Claims about get_det_prefix -/

/-- C6 counterexample: when a second semicolon-delimited segment is
present it is not used directly as the device prefix: a colon is appended
to it. -/
theorem C6_counterexample :
    get_det_prefix "XCS:SB2:IMG;XCS:SB2:CAM" ≠ "XCS:SB2:CAM" ∧
    get_det_prefix "XCS:SB2:IMG;XCS:SB2:CAM" = "XCS:SB2:CAM:" := by decide

/-- C6 (amended): splitting `pv_info` on semicolons, the derived device
prefix is the second segment when one is present, and otherwise the first
segment with its last colon-delimited segment stripped off; in both cases
a trailing colon is appended. -/
theorem C6_det_prefix_shape (pv_info : String) :
    get_det_prefix pv_info =
      (if 2 ≤ (pySplit pv_info ';').length then (pySplit pv_info ';').getD 1 ""
       else pyJoin ":"
         ((pySplit ((pySplit pv_info ';').headD "") ':').dropLast)) ++ ":" := by
  rcases h : pySplit pv_info ';' with _ | ⟨a, _ | ⟨b, rest⟩⟩ <;>
    simp [ get_det_prefix, h]

/-- Deduplication distributes over append, threading the seen-prefix set. -/
theorem dedup_first_append (a b : List (List String)) (pv : List String) :
    dedup_first (a ++ b) pv =
      ((dedup_first a pv).1 ++ (dedup_first b (dedup_first a pv).2).1,
       (dedup_first b (dedup_first a pv).2).2) := by
  induction a generalizing pv with
  | nil => simp [dedup_first]
  | cons parts rest ih =>
    by_cases h : line_prefix_of parts ∈ pv <;>
      simp [dedup_first, h, ih]

/-- The interpreter is the first-occurrence deduplication of the
fully-expanded line sequence: both compute the same branches, and the seen
set never changes which lines are traversed. -/
theorem interpret_lines_refines (fs : CfgFS) :
    ∀ (fuel : Nat) (lines pvnames : List String),
      interpret_lines_fuel fuel fs lines pvnames =
        (flatten_lines_fuel fuel fs lines).map fun ls =>
          dedup_first ls pvnames := by
  intro fuel
  induction fuel with
  | zero => intro lines pvnames; rfl
  | succ f ih =>
    intro lines pvnames
    match lines with
    | [] => simp [interpret_lines_fuel, flatten_lines_fuel, dedup_first]
    | line :: rest =>
      rcases ha : line_action line with _ | fname | parts
      · simp only [interpret_lines_fuel, flatten_lines_fuel, ha]
        exact ih rest pvnames
      · simp only [interpret_lines_fuel, flatten_lines_fuel, ha]
        rcases hl : alistGet fs fname with _ | flines
        · simp
        · dsimp only
          rw [ih flines pvnames]
          rcases hfl : flatten_lines_fuel f fs flines with _ | inc
          · simp
          · simp only [Option.map_some']
            rw [ih rest (dedup_first inc pvnames).2]
            rcases hfr : flatten_lines_fuel f fs rest with _ | info
            · simp
            · simp [dedup_first_append]
      · simp only [interpret_lines_fuel, flatten_lines_fuel, ha]
        by_cases hc : pvnames.contains (line_prefix_of parts) = true
        · rw [if_pos hc, ih rest pvnames]
          have hm : line_prefix_of parts ∈ pvnames := by simpa using hc
          rcases hfr : flatten_lines_fuel f fs rest with _ | info
          · simp
          · simp [dedup_first, hm]
        · rw [if_neg hc, ih rest (pvnames ++ [line_prefix_of parts])]
          have hm : line_prefix_of parts ∉ pvnames := by simpa using hc
          rcases hfr : flatten_lines_fuel f fs rest with _ | info
          · simp
          · simp [dedup_first, hm]

/-- File-level version of `interpret_lines_refines`. -/
theorem interpret_cfg_refines (fs : CfgFS) (fuel : Nat) (filename : String)
    (pvnames : List String) :
    interpret_cfg_fuel fuel fs filename pvnames =
      (flatten_cfg_fuel fuel fs filename).map fun ls =>
        dedup_first ls pvnames := by
  match fuel with
  | 0 => rfl
  | f + 1 =>
    simp only [interpret_cfg_fuel, flatten_cfg_fuel]
    rcases hl : alistGet fs filename with _ | lines
    · simp
    · simp [interpret_lines_refines fs f lines pvnames]

/-- The kept lines have pairwise-distinct derived prefixes, none of them
already seen. -/
theorem dedup_first_nodup (ls : List (List String)) (pv : List String) :
    ((dedup_first ls pv).1.map line_prefix_of).Nodup ∧
    ∀ parts ∈ (dedup_first ls pv).1, line_prefix_of parts ∉ pv := by
  induction ls generalizing pv with
  | nil => simp [dedup_first]
  | cons parts rest ih =>
    by_cases h : line_prefix_of parts ∈ pv
    · have hc : pv.contains (line_prefix_of parts) = true := by simpa using h
      obtain ⟨hnd, hnotin⟩ := ih pv
      refine ⟨?_, ?_⟩
      · simpa [dedup_first, h] using hnd
      · simpa [dedup_first, h] using hnotin
    · have hc : pv.contains (line_prefix_of parts) = false := by simpa using h
      obtain ⟨hnd, hnotin⟩ := ih (pv ++ [line_prefix_of parts])
      refine ⟨?_, ?_⟩
      · simp only [dedup_first, hc, Bool.false_eq_true, if_false,
          List.map_cons, List.nodup_cons]
        refine ⟨?_, hnd⟩
        intro hmem
        rcases List.mem_map.mp hmem with ⟨q, hq, hqe⟩
        have hnp := hnotin q hq
        rw [hqe] at hnp
        exact hnp (List.mem_append_right _ (List.mem_singleton.mpr rfl))
      · simp only [dedup_first, hc, Bool.false_eq_true, if_false,
          List.mem_cons]
        intro q hq
        rcases hq with rfl | hq
        · exact h
        · intro hmem
          exact hnotin q hq (List.mem_append_left _ hmem)

/-- C7 (amended): whenever interpreting a camera-config file returns a
line list (the include chain bottoms out within the interpreter's budget;
a self-referential chain never does - see the counterexample), that list
has at most one entry per derived device prefix, and it is exactly the
first-occurrence-wins deduplication of the fully-expanded line sequence in
reading order. -/
theorem C7_interpret_nodup_first_wins (fuel : Nat) (fs : CfgFS)
    (filename : String) (info : List (List String)) (pv : List String)
    (h : interpret_cfg_fuel fuel fs filename [] = some (info, pv)) :
    (info.map line_prefix_of).Nodup ∧
    ∃ fl, flatten_cfg_fuel fuel fs filename = some fl ∧
      (info, pv) = dedup_first fl [] := by
  rw [interpret_cfg_refines fs fuel filename []] at h
  rcases hfl : flatten_cfg_fuel fuel fs filename with _ | fl
  · rw [hfl] at h; simp at h
  · rw [hfl] at h
    simp only [Option.map_some', Option.some.injEq] at h
    refine ⟨?_, fl, rfl, h.symm⟩
    have hnd := (dedup_first_nodup fl []).1
    rw [h] at hnd
    exact hnd

/-- Witness for C7: a two-file config whose included file repeats a
derived prefix keeps the first occurrence only. -/
theorem C7_witness :
    (([["GE", "IMG:A:DATA", "evr", "cam one"],
       ["GE", "IMG:B:DATA", "evr", "cam two"]].map line_prefix_of).Nodup) ∧
    ∃ fl, flatten_cfg_fuel 20 c7_fs "main.cfg" = some fl ∧
      (([["GE", "IMG:A:DATA", "evr", "cam one"],
         ["GE", "IMG:B:DATA", "evr", "cam two"]],
        ["IMG:A:", "IMG:B:"]) = dedup_first fl [] : Prop) :=
  C7_interpret_nodup_first_wins 20 c7_fs "main.cfg"
    [["GE", "IMG:A:DATA", "evr", "cam one"],
     ["GE", "IMG:B:DATA", "evr", "cam two"]]
    ["IMG:A:", "IMG:B:"] (by decide)

/-- A self-including config makes the interpreter recurse forever: no
finite budget returns a result (Python raises `RecursionError`). -/
theorem self_include_no_result :
    ∀ (fuel : Nat) (pvnames : List String),
      interpret_cfg_fuel fuel c7_self_fs "a.cfg" pvnames = none := by
  have hlines : ∀ (fuel : Nat) (pvnames : List String),
      interpret_lines_fuel fuel c7_self_fs
        ["include a.cfg", "GE,SELF:IMG:DATA,evr,selfcam"] pvnames = none := by
    intro fuel
    induction fuel with
    | zero => intro pv; rfl
    | succ f ih =>
      intro pv
      simp only [interpret_lines_fuel]
      rw [show line_action "include a.cfg" = LineAction.includeFile "a.cfg"
        from rfl]
      dsimp only
      rw [show alistGet c7_self_fs "a.cfg" =
        some ["include a.cfg", "GE,SELF:IMG:DATA,evr,selfcam"] from rfl]
      dsimp only
      rw [ih pv]
  intro fuel pv
  match fuel with
  | 0 => rfl
  | f + 1 =>
    simp only [interpret_cfg_fuel]
    rw [show alistGet c7_self_fs "a.cfg" =
      some ["include a.cfg", "GE,SELF:IMG:DATA,evr,selfcam"] from rfl]
    exact hlines f pv

/-- C7 counterexample: for the self-referential include chain (the file
exists and includes itself), no interpreted line list is produced at all -
the recursion never returns, so the claimed deduplicated list does not
exist for such files. -/
theorem C7_counterexample :
    interpret_cfg_fuel 1000 c7_self_fs "a.cfg" [] = none ∧
    alistGet c7_self_fs "a.cfg" ≠ none :=
  ⟨self_include_no_result 1000 [], by decide⟩

/-- A line satisfying `plain_device_line` is parsed as a device line with
its comma-split trimmed fields. -/
theorem line_action_device_of (line : String) (h : plain_device_line line) :
    line_action line = LineAction.device (parse_parts line) := by
  obtain ⟨h1, h2, h3, h4⟩ := h
  simp only [parse_parts] at h3 h4
  have hb : (decide (pyStrip line = "") ||
      pyStartsWith (pyStrip line) "#") = false := by
    simp [h1, h2]
  have hi : pyStartsWith
      (((pySplit (pyStrip line) ',').map pyStrip).headD "") "include" = false := by
    simpa using h3
  simp only [line_action, hb, hi, Bool.false_eq_true, if_false, if_pos h4]
  rfl

/-- Lookup in a one-file file system. -/
theorem alistGet_single {α : Type} (k : String) (v : α) :
    alistGet [(k, v)] k = some v := by
  simp [alistGet]

/-- Any line whose first field does not start with "GE" builds nothing:
`UnsupportedConfig` (or `TypeError` for a short line) is caught and
`build_and_log` returns `None`. -/
theorem build_and_log_not_ge (parts : List String)
    (h : ¬ pyStartsWith (parts.headD "") "GE") :
    build_and_log parts = none := by
  match parts with
  | [] => rfl
  | [_] => rfl
  | [_, _] => rfl
  | [_, _, _] => rfl
  | a :: b :: c :: d :: rest =>
    simp only [List.headD] at h
    simp [build_and_log, build_cam, h]

/-- A well-formed line builds the detector with the derived prefix and
the transformed name. -/
theorem build_cam_well_formed (parts : List String)
    (h4 : 4 ≤ parts.length)
    (hge : pyStartsWith (parts.headD "") "GE" = true)
    (hpv : parts.getD 1 "" ≠ "") (hname : parts.getD 3 "" ≠ "") :
    build_cam parts = Except.ok
      { base_pv := get_det_prefix (parts.getD 1 "")
        name := pyLower (pyReplaceChar (parts.getD 3 "") ' ' '_') } := by
  match parts with
  | [] => simp at h4
  | [_] => simp at h4
  | [_, _] => simp at h4
  | [_, _, _] => simp at h4
  | a :: b :: c :: d :: rest =>
    simp only [List.headD] at hge
    have hb : b ≠ "" := by simpa [List.getD] using hpv
    have hd : d ≠ "" := by simpa [List.getD] using hname
    simp [build_cam, hge, hb, hd, List.getD]

/-- Interpreting a two-device-line file with distinct derived prefixes
keeps both lines. -/
theorem interpret_two_device_lines (fuel : Nat) (fs : CfgFS) (l1 l2 : String)
    (ha1 : line_action l1 = LineAction.device (parse_parts l1))
    (ha2 : line_action l2 = LineAction.device (parse_parts l2))
    (hne : line_prefix_of (parse_parts l1) ≠ line_prefix_of (parse_parts l2)) :
    interpret_lines_fuel (fuel + 3) fs [l1, l2] [] =
      some ([parse_parts l1, parse_parts l2],
            [line_prefix_of (parse_parts l1),
             line_prefix_of (parse_parts l2)]) := by
  have c1 : ([] : List String).contains (line_prefix_of (parse_parts l1)) =
      false := rfl
  have c2 : ([line_prefix_of (parse_parts l1)]).contains
      (line_prefix_of (parse_parts l2)) = false := by
    simpa using fun he => hne he.symm
  simp only [interpret_lines_fuel, ha1, c1, Bool.false_eq_true, if_false,
    List.nil_append, ha2, c2]
  rfl

/-- Interpreting a two-device-line file whose second line repeats the
first line's derived prefix keeps only the first line. -/
theorem interpret_two_device_lines_dup (fuel : Nat) (fs : CfgFS)
    (l1 l2 : String)
    (ha1 : line_action l1 = LineAction.device (parse_parts l1))
    (ha2 : line_action l2 = LineAction.device (parse_parts l2))
    (heq : line_prefix_of (parse_parts l2) = line_prefix_of (parse_parts l1)) :
    interpret_lines_fuel (fuel + 3) fs [l1, l2] [] =
      some ([parse_parts l1], [line_prefix_of (parse_parts l1)]) := by
  have c1 : ([] : List String).contains (line_prefix_of (parse_parts l1)) =
      false := rfl
  have c2 : ([line_prefix_of (parse_parts l1)]).contains
      (line_prefix_of (parse_parts l2)) = true := by
    simp [heq]
  simp only [interpret_lines_fuel, ha1, c1, Bool.false_eq_true, if_false,
    List.nil_append, ha2, c2, if_true]

/-- C8 (amended): for a config file of one well-formed line and one line
whose device type does not start with "GE", in either order, the loader
returns a mapping with exactly one entry - the well-formed line's device
under its transformed name - and no exception escapes (a result is
returned; the unsupported line's error is caught per line), provided the
two lines derive distinct device prefixes or the well-formed line comes
first.  In the one remaining case - the unsupported line first, deriving
the same prefix - it shadows the well-formed line and the mapping is
empty: see the counterexample. -/
theorem C8_single_entry (fuel : Nat) (filename good bad : String)
    (goodFirst : Bool) (hg : well_formed_line good) (hb : unsupported_line bad)
    (hcase : line_prefix_of (parse_parts good) ≠
      line_prefix_of (parse_parts bad) ∨ goodFirst = true) :
    read_camviewer_cfg (fuel + 4)
        [(filename, if goodFirst then [good, bad] else [bad, good])]
        filename =
      some [(pyLower (pyReplaceChar ((parse_parts good).getD 3 "") ' ' '_'),
             { base_pv := get_det_prefix ((parse_parts good).getD 1 "")
               name := pyLower
                 (pyReplaceChar ((parse_parts good).getD 3 "") ' ' '_') })] := by
  obtain ⟨hgp, hg4, hgge, hgpv, hgname⟩ := hg
  obtain ⟨hbp, hbge⟩ := hb
  have hag := line_action_device_of good hgp
  have hab := line_action_device_of bad hbp
  have hbl_g : build_and_log (parse_parts good) =
      some { base_pv := get_det_prefix ((parse_parts good).getD 1 "")
             name := pyLower
               (pyReplaceChar ((parse_parts good).getD 3 "") ' ' '_') } := by
    simp [build_and_log, build_cam_well_formed (parse_parts good) hg4 hgge
      hgpv hgname]
  have hbl_b : build_and_log (parse_parts bad) = none :=
    build_and_log_not_ge _ hbge
  cases goodFirst
  · have hne : line_prefix_of (parse_parts good) ≠
        line_prefix_of (parse_parts bad) := by
      rcases hcase with h | h
      · exact h
      · simp at h
    have hkey := interpret_two_device_lines fuel [(filename,
      [bad, good])] bad good hab hag (fun he => hne he.symm)
    simp only [read_camviewer_cfg, interpret_cfg_fuel, Bool.false_eq_true,
      if_false]
    rw [alistGet_single]
    dsimp only
    rw [hkey]
    simp only [Option.map_some']
    simp only [load_cams, List.map, hbl_b, hbl_g, List.foldl]
    simp [alistSet]
  · by_cases hne : line_prefix_of (parse_parts good) ≠
        line_prefix_of (parse_parts bad)
    · have hkey := interpret_two_device_lines fuel [(filename,
        [good, bad])] good bad hag hab hne
      simp only [read_camviewer_cfg, interpret_cfg_fuel, if_true]
      rw [alistGet_single]
      dsimp only
      rw [hkey]
      simp only [Option.map_some']
      simp only [load_cams, List.map, hbl_b, hbl_g, List.foldl]
      simp [alistSet]
    · have heq : line_prefix_of (parse_parts bad) =
          line_prefix_of (parse_parts good) := (of_not_not hne).symm
      have hkey := interpret_two_device_lines_dup fuel [(filename,
        [good, bad])] good bad hag hab heq
      simp only [read_camviewer_cfg, interpret_cfg_fuel, if_true]
      rw [alistGet_single]
      dsimp only
      rw [hkey]
      simp only [Option.map_some']
      simp only [load_cams, List.map, hbl_g, List.foldl]
      simp [alistSet]

/-- An entry of an updated dict is an old entry or the written pair. -/
theorem mem_alistSet_cases {α : Type} (m : List (String × α)) (key : String)
    (v : α) (k : String) (c : α) :
    (k, c) ∈ alistSet m key v → (k, c) ∈ m ∨ (k = key ∧ c = v) := by
  induction m with
  | nil =>
    intro h
    simp [alistSet] at h
    exact Or.inr h
  | cons p rest ih =>
    obtain ⟨k', v'⟩ := p
    intro h
    by_cases he : k' = key
    · simp only [alistSet, if_pos he] at h
      rcases List.mem_cons.mp h with h1 | h1
      · exact Or.inr ⟨(Prod.ext_iff.mp h1).1, (Prod.ext_iff.mp h1).2⟩
      · exact Or.inl (List.mem_cons_of_mem _ h1)
    · simp only [alistSet, if_neg he] at h
      rcases List.mem_cons.mp h with h1 | h1
      · exact Or.inl (h1 ▸ List.mem_cons_self _ _)
      · rcases ih h1 with h2 | h2
        · exact Or.inl (List.mem_cons_of_mem _ h2)
        · exact Or.inr h2

/-- Every key of the mapping `load_cams` builds is its device's name. -/
theorem load_cams_key_eq_name :
    ∀ (info : List (List String)) (k : String) (c : PCDSAreaDetector),
      (k, c) ∈ load_cams info → k = c.name := by
  have hfold : ∀ (l : List (Option PCDSAreaDetector))
      (acc : List (String × PCDSAreaDetector)),
      (∀ k c, (k, c) ∈ acc → k = c.name) →
      ∀ k c, (k, c) ∈ l.foldl (fun objs o =>
        match o with
        | some obj => alistSet objs obj.name obj
        | none => objs) acc → k = c.name := by
    intro l
    induction l with
    | nil => intro acc hacc; exact hacc
    | cons o rest ih =>
      intro acc hacc
      cases o with
      | none => exact ih acc hacc
      | some obj =>
        apply ih
        intro k c hm
        rcases mem_alistSet_cases acc obj.name obj k c hm with h1 | ⟨hk, hc⟩
        · exact hacc _ _ h1
        · rw [hk, hc]
    
  intro info k c h
  exact hfold (info.map build_and_log) []
    (by intro k c h; simp at h) k c h

/-- C9: a successfully built device's name is the line's fourth field
with spaces replaced by underscores and lowercased, and every key of the
returned mapping is its device's name - so the key is the transformed
fourth field, not the field verbatim. -/
theorem C9_name_transformed (info_part : List String) (cam : PCDSAreaDetector)
    (h : build_cam info_part = Except.ok cam) :
    cam.name = pyLower (pyReplaceChar (info_part.getD 3 "") ' ' '_') ∧
    ∀ (info : List (List String)) (k : String) (c : PCDSAreaDetector),
      (k, c) ∈ load_cams info → k = c.name := by
  refine ⟨?_, load_cams_key_eq_name⟩
  match info_part with
  | [] => simp [build_cam] at h
  | [_] => simp [build_cam] at h
  | [_, _] => simp [build_cam] at h
  | [_, _, _] => simp [build_cam] at h
  | a :: b :: c' :: d :: rest =>
    simp only [build_cam] at h
    split_ifs at h with h1 h2
    have hc := Except.ok.inj h
    subst hc
    simp [List.getD]

/-- Writing one key leaves the other keys' lookups unchanged. -/
theorem alistGet_alistSet_ne {α : Type} (m : List (String × α))
    (key k : String) (v : α) (h : k ≠ key) :
    alistGet (alistSet m key v) k = alistGet m k := by
  have h' : ¬ key = k := fun he => h he.symm
  induction m with
  | nil => simp [alistSet, alistGet, h']
  | cons p rest ih =>
    obtain ⟨k', v'⟩ := p
    by_cases he : k' = key
    · subst he
      simp [alistSet, alistGet, h']
    · simp [alistSet, alistGet, he, ih]

/-- The first-letter alias has length `min 1 (length name)`. -/
theorem head_alias_length (name : String) :
    (head_alias name).length = min 1 name.length := by
  show (name.data.take 1).length = min 1 name.length
  rw [List.length_take]
  rfl

/-- C10: a non-empty class-filtered group is registered under exactly
its full name and its first-letter alias (distinct names, since the group
names at hand have at least two characters), every other name's
registration is untouched, and an empty group registers nothing. -/
theorem C10_two_names_or_none (objs : List Nat) (name : String)
    (cache : GroupNamespace) (hlen : 2 ≤ name.length) :
    (objs.length = 0 → default_class_namespace objs name cache = cache) ∧
    (0 < objs.length →
      name ≠ head_alias name ∧
      alistGet (default_class_namespace objs name cache) name = some objs ∧
      alistGet (default_class_namespace objs name cache) (head_alias name) =
        some objs ∧
      ∀ k, k ≠ name → k ≠ head_alias name →
        alistGet (default_class_namespace objs name cache) k =
          alistGet cache k) := by
  have hne : name ≠ head_alias name := by
    intro he
    have h1 : name.length = (head_alias name).length := by rw [← he]
    rw [head_alias_length] at h1
    omega
  constructor
  · intro h0
    simp [default_class_namespace, h0]
  · intro hpos
    have hunfold : default_class_namespace objs name cache =
        alistSet (alistSet cache name objs) (head_alias name) objs := by
      simp only [default_class_namespace, if_pos hpos, if_neg hne]
      rfl
    refine ⟨hne, ?_, ?_, ?_⟩
    · rw [hunfold, alistGet_alistSet_ne _ _ _ _ hne,
        alistGet_alistSet_self]
    · rw [hunfold, alistGet_alistSet_self]
    · intro k hk1 hk2
      rw [hunfold, alistGet_alistSet_ne _ _ _ _ hk2,
        alistGet_alistSet_ne _ _ _ _ hk1]

/-- Witness for C10: a two-member motors group is registered under
"motors" and "m". -/
theorem C10_witness :
    alistGet (default_class_namespace [1, 2] "motors" []) "motors" =
      some [1, 2] ∧
    alistGet (default_class_namespace [1, 2] "motors" [])
      (head_alias "motors") = some [1, 2] :=
  ⟨(((C10_two_names_or_none [1, 2] "motors" [] (by decide)).2
      (by decide)).2).1,
   ((((C10_two_names_or_none [1, 2] "motors" [] (by decide)).2
      (by decide)).2).2).1⟩

/-- C8 counterexample: a file whose unsupported line precedes a
well-formed line with the same derived prefix ("IMG:A:") returns an empty
mapping, not one entry: the well-formed line is deduplicated away and the
surviving line fails to build. -/
theorem C8_counterexample :
    well_formed_line "GE,IMG:A:RAW,evr,good cam" ∧
    unsupported_line "XX,IMG:A:DATA,evr,bad cam" ∧
    read_camviewer_cfg 9 c8_shadow_fs "cams.cfg" = some [] := by decide

/-- Witness for C8: with the unsupported line first but a distinct
prefix, exactly the well-formed line's device is returned, keyed by its
transformed name. -/
theorem C8_witness :
    read_camviewer_cfg (0 + 4)
        [("cams.cfg", if (false : Bool) then [c8_good, c8_bad]
          else [c8_bad, c8_good])] "cams.cfg" =
      some [(pyLower (pyReplaceChar ((parse_parts c8_good).getD 3 "") ' ' '_'),
             { base_pv := get_det_prefix ((parse_parts c8_good).getD 1 "")
               name := pyLower
                 (pyReplaceChar ((parse_parts c8_good).getD 3 "") ' ' '_') })] :=
  C8_single_entry 0 "cams.cfg" c8_good c8_bad false (by decide) (by decide)
    (by decide)

/-- Witness for C9: the line naming "My Cam 1" is keyed "my_cam_1". -/
theorem C9_witness :
    c9_cam.name =
      pyLower (pyReplaceChar
        ((["GE", "IMG:A:DATA", "evr", "My Cam 1"]).getD 3 "") ' ' '_') :=
  (C9_name_transformed ["GE", "IMG:A:DATA", "evr", "My Cam 1"] c9_cam rfl).1
